import Mathlib

/-!
Shallow embedding of the secure path-resolution subsystem of the
video-downloader server (`src/server.py`): the configuration store
(`SecureConfigManager.get`), the path validator (`PathValidator.validate_path`,
`PathValidator._contains_traversal`, `PathValidator.sanitize_template_vars`)
and the location manager (`LocationManager.validate_location`,
`LocationManager.construct_download_path`).

Python strings are modelled as `List Char`.  The POSIX path conventions used
by the code (`os.sep = '/'`, `os.path.isabs`, `os.path.join`,
`os.path.basename`, `os.path.splitext`) are embedded from their CPython
`posixpath` definitions.  The two environment-dependent primitives
`os.path.expanduser` and `os.path.realpath` are abstract parameters of the
embedded functions; for concrete evaluations they are instantiated with `id`
and with `normalize_absolute`, a lexical model of `realpath` on a
symlink-free filesystem.
-/

/-- A Python string, modelled as its list of characters. -/
abbrev Str := List Char

/-- POSIX `os.path.isabs`: the path starts with the separator `'/'`. -/
def isabs (p : Str) : Bool :=
  decide (['/'] <+: p)

/-- Two-argument `os.path.join` on POSIX: if `b` starts with `'/'` the result
is `b`; otherwise `a` and `b` joined, inserting `'/'` unless `a` is empty or
already ends with `'/'`. -/
def path_join (a b : Str) : Str :=
  if decide (['/'] <+: b) then b
  else if a.isEmpty || decide (a.getLast? = some '/') then a ++ b
  else a ++ '/' :: b

/-- POSIX `os.path.basename`: everything after the last `'/'`. -/
def basename (p : Str) : Str :=
  (p.reverse.takeWhile (fun c => c ≠ '/')).reverse

/-- Python `str.rfind` for a single character: the index of its last
occurrence, or `-1` when absent. -/
def rfind (c : Char) (p : Str) : Int :=
  match p.reverse.findIdx? (fun x => x = c) with
  | none => -1
  | some i => (p.length : Int) - 1 - (i : Int)

/-- The extension part of `os.path.splitext` on POSIX: the suffix from the
last dot on, provided that dot lies after the last separator and some
character between the last separator and that dot is not a dot (so leading
dots of the final component never start an extension). -/
def splitext_ext (p : Str) : Str :=
  let sepIndex := rfind '/' p
  let dotIndex := rfind '.' p
  if sepIndex < dotIndex then
    if ((p.drop (sepIndex + 1).toNat).take (dotIndex - sepIndex - 1).toNat).any
        (fun c => c ≠ '.') then
      p.drop dotIndex.toNat
    else []
  else []

/-- Python `str.lstrip` with argument `"."`: drop every leading dot. -/
def lstrip_dot (s : Str) : Str :=
  s.dropWhile (fun c => c = '.')

/-- Python `str.lower`, character by character. -/
def py_lower (s : Str) : Str :=
  s.map Char.toLower

/-- Python single-character `str.replace old new`. -/
def py_replace_char (s : Str) (old new : Char) : Str :=
  s.map (fun x => if x = old then new else x)

/-- The `dangerous_patterns` list of `PathValidator._contains_traversal`:
dot-dot-slash, dot-dot-backslash, and their doubled variants (as the
Python literals denote). -/
def dangerous_patterns : List Str :=
  ["../".toList, "..\\".toList, "..\\\\".toList, "..//".toList]

/-- Embeds `PathValidator._contains_traversal`: some dangerous pattern occurs as a
substring of the lowercased path. -/
def contains_traversal (path : Str) : Bool :=
  dangerous_patterns.any (fun pattern => decide (pattern <:+: py_lower path))

/-- The `dangerous_chars` list of `PathValidator.sanitize_template_vars`:
`| & ; $ backquote > <` (the backquote written via its code point 96). -/
def dangerous_chars : List Char :=
  ['|', '&', ';', '$', Char.ofNat 96, '>', '<']

/-- Embeds `PathValidator.sanitize_template_vars`: replace each dangerous character
by `'_'`, one `str.replace` pass per character. -/
def sanitize_template_vars (template : Str) : Str :=
  dangerous_chars.foldl (fun sanitized c => py_replace_char sanitized c '_') template

/-- The policy values a `PathValidator` reads from the configuration:
`security.allowed_extensions`, `security.max_filename_length`,
`security.block_path_traversal`. -/
structure PathValidator where
  allowed_extensions : List Str
  max_filename_length : Nat
  block_traversal : Bool

/-- The rejection reasons of the subsystem, one per distinct error return of
`validate_path`, `validate_location` and `construct_download_path`. -/
inductive RejectReason where
  /-- Error message: Path traversal sequences detected. -/
  | PathTraversalDetected
  /-- Error message: Absolute paths not allowed. -/
  | AbsolutePathRejected
  /-- Error message: Path escapes allowed directory. -/
  | PathEscapesBase
  /-- Error message: Filename too long. -/
  | FilenameTooLong
  /-- Error message: File extension not allowed. -/
  | ExtensionNotAllowed
  /-- Error message: Unknown location. -/
  | UnknownLocation
  /-- Error message: Location is not writable. -/
  | LocationNotWritable
  deriving DecidableEq, Repr

/-- The `(is_valid, path, error)` tuple returned by the validators, as a
tagged outcome. -/
inductive ValidationResult where
  | accepted (path : Str)
  | rejected (reason : RejectReason)
  deriving DecidableEq, Repr

/-- Embeds `PathValidator.validate_path`, with `os.path.expanduser` and
`os.path.realpath` as abstract parameters `eu` and `rp`. -/
def validate_path (v : PathValidator) (eu rp : Str → Str)
    (path base_dir : Str) : ValidationResult :=
  if v.block_traversal && contains_traversal path then
    .rejected .PathTraversalDetected
  else
    let base_dir := eu base_dir
    if isabs path then
      .rejected .AbsolutePathRejected
    else
      let full_path := path_join base_dir path
      let normalized := rp full_path
      let base_real := rp base_dir
      if ¬ ((base_real ++ ['/']) <+: normalized) ∧ normalized ≠ base_real then
        .rejected .PathEscapesBase
      else
        let filename := basename normalized
        if filename.length > v.max_filename_length then
          .rejected .FilenameTooLong
        else if v.allowed_extensions ≠ [] then
          let ext := lstrip_dot (py_lower (splitext_ext filename))
          if ext ≠ [] ∧ ext ∉ v.allowed_extensions then
            .rejected .ExtensionNotAllowed
          else
            .accepted normalized
        else
          .accepted normalized

/-- One entry of `LocationManager.get_locations()`: the expanded path, the
configured original string, and the writability probe outcome.  (The source
also stores a display-only description string, not modelled.) -/
structure LocationInfo where
  path : Str
  original : Str
  writable : Bool

/-- Embeds `LocationManager.validate_location` over an already-built locations
mapping (modelled as an association list). -/
def validate_location (locations : List (Str × LocationInfo))
    (location_id : Str) : Except RejectReason Str :=
  match locations.lookup location_id with
  | none => .error .UnknownLocation
  | some location =>
    if !location.writable then .error .LocationNotWritable
    else .ok location.path

/-- Python truthiness of an optional-string argument: present and non-empty. -/
def opt_truthy : Option Str → Bool
  | some s => !s.isEmpty
  | none => false

/-- Embeds `LocationManager.construct_download_path`.  `default_template` stands for
the configured default filename template, read by the source from the key
path `ytdlp.default_filename_template` with the built-in fallback. -/
def construct_download_path (v : PathValidator)
    (locations : List (Str × LocationInfo)) (eu rp : Str → Str)
    (default_template : Str) (location_id : Str)
    (relative_path filename_template : Option Str) : ValidationResult :=
  match validate_location locations location_id with
  | .error reason => .rejected reason
  | .ok base_path =>
    let full_relative :=
      if opt_truthy relative_path then
        if opt_truthy filename_template then
          path_join (relative_path.getD []) (filename_template.getD [])
        else relative_path.getD []
      else if opt_truthy filename_template then
        filename_template.getD []
      else default_template
    let full_relative := sanitize_template_vars full_relative
    validate_path v eu rp full_relative base_path

/-- A node of the parsed configuration tree (`SecureConfigManager.config`):
a mapping (Python `dict`, modelled as an association list) or a scalar/list
leaf. -/
inductive ConfigValue where
  | dict (entries : List (Str × ConfigValue))
  | str (s : Str)
  | int (n : Int)
  | bool (b : Bool)
  | list (xs : List ConfigValue)

/-- The key loop of `SecureConfigManager.get`: walk one key at a time,
returning `default` as soon as the current node is not a mapping or lacks
the key. -/
def config_get_loop (default : ConfigValue) :
    List Str → ConfigValue → ConfigValue
  | [], value => value
  | key :: keys, value =>
    match value with
    | .dict entries =>
      match entries.lookup key with
      | some next => config_get_loop default keys next
      | none => default
    | _ => default

/-- Embeds `SecureConfigManager.get`: split the dotted path and walk the tree. -/
def config_get (config : ConfigValue) (path : Str) (default : ConfigValue) :
    ConfigValue :=
  config_get_loop default (path.splitOn '.') config

/-- Modelled from the spec: the traversal contract of §4.1 as a partial
lookup — follow the key segments through nested mappings, `none` the moment
a segment is missing or a non-mapping node is encountered where a mapping
was expected, `some` of the value reached otherwise.  Used to state the
refinement claim about `config_get`. -/
def config_traverse : ConfigValue → List Str → Option ConfigValue
  | value, [] => some value
  | .dict entries, key :: keys =>
    match entries.lookup key with
    | some next => config_traverse next keys
    | none => none
  | _, _ :: _ => none

/-- The built-in default security policy of `SecureConfigManager._load_config`
(`max_filename_length` 255, the bundled extension allow-list, traversal
blocking on). -/
def default_validator : PathValidator where
  allowed_extensions :=
    ["mp4".toList, "webm".toList, "mkv".toList, "avi".toList, "mov".toList,
     "m4a".toList, "mp3".toList, "aac".toList, "ogg".toList, "wav".toList,
     "vtt".toList, "srt".toList, "ass".toList, "ssa".toList]
  max_filename_length := 255
  block_traversal := true

/-- The built-in default `ytdlp.default_filename_template`. -/
def default_filename_template : Str := "%(title)s.%(ext)s".toList

/-- A lexical model of `os.path.realpath` on a filesystem without symbolic
links: resolve `.` and `..` segments of an absolute path, never escaping the
root.  Used to instantiate the abstract `rp` parameter on concrete inputs. -/
def normalize_absolute (p : Str) : Str :=
  let parts := (p.splitOn '/').foldl
    (fun acc comp =>
      if comp = [] || comp = ['.'] then acc
      else if comp = ['.', '.'] then acc.dropLast
      else acc ++ [comp]) []
  '/' :: (List.intercalate ['/'] parts)

/-- Pointwise description of one full sanitization pass: a dangerous
character becomes an underscore, every other character is unchanged. -/
def sanitize_char (c : Char) : Char :=
  if c ∈ dangerous_chars then '_' else c

/-- A fold of single-character replacements distributes over cons. -/
theorem foldl_replace_cons (cs : List Char) (c : Char) (t : Str) :
    cs.foldl (fun sanitized ch => py_replace_char sanitized ch '_') (c :: t)
      = cs.foldl (fun x ch => if x = ch then '_' else x) c
        :: cs.foldl (fun sanitized ch => py_replace_char sanitized ch '_') t := by
  induction cs generalizing c t with
  | nil => rfl
  | cons ch cs ih =>
    rw [List.foldl_cons, List.foldl_cons, List.foldl_cons]
    have hstep : py_replace_char (c :: t) ch '_'
        = (if c = ch then '_' else c) :: py_replace_char t ch '_' := rfl
    rw [hstep, ih]

/-- Folding the seven replacements over one character is `sanitize_char`. -/
theorem foldl_replace_char (c : Char) :
    dangerous_chars.foldl (fun x ch => if x = ch then '_' else x) c
      = sanitize_char c := by
  by_cases h : c ∈ dangerous_chars
  · fin_cases h <;> decide
  · have h' : ¬ (c = '|' ∨ c = '&' ∨ c = ';' ∨ c = '$' ∨ c = Char.ofNat 96 ∨
        c = '>' ∨ c = '<') := by simpa [dangerous_chars] using h
    push_neg at h'
    obtain ⟨h1, h2, h3, h4, h5, h6, h7⟩ := h'
    simp [dangerous_chars, sanitize_char, h, h1, h2, h3, h4, h5, h6, h7]

/-- Sanitization is the pointwise map of `sanitize_char`. -/
theorem sanitize_template_vars_eq_map (t : Str) :
    sanitize_template_vars t = t.map sanitize_char := by
  induction t with
  | nil => rfl
  | cons c t ih =>
    rw [sanitize_template_vars] at *
    rw [foldl_replace_cons, foldl_replace_char, ih, List.map_cons]

/-- An already-sanitized character is left alone by `sanitize_char`. -/
theorem sanitize_char_idem (c : Char) :
    sanitize_char (sanitize_char c) = sanitize_char c := by
  by_cases h : c ∈ dangerous_chars
  · have h1 : sanitize_char c = '_' := by rw [sanitize_char, if_pos h]
    rw [h1]; decide
  · have h1 : sanitize_char c = c := by rw [sanitize_char, if_neg h]
    rw [h1, h1]

/-- C8: template sanitization is idempotent — sanitizing an already
sanitized template returns it unchanged, for every template string. -/
theorem sanitize_template_vars_idem (t : Str) :
    sanitize_template_vars (sanitize_template_vars t) = sanitize_template_vars t := by
  rw [sanitize_template_vars_eq_map, sanitize_template_vars_eq_map, List.map_map]
  exact List.map_congr_left (fun c _ => sanitize_char_idem c)

/-- C10: the sanitized template contains none of the seven denylisted
characters, has the same length as the input, agrees with the input at every
position holding a non-denylisted character, and holds an underscore at
every position where the input holds a denylisted character. -/
theorem sanitize_template_vars_pointwise (t : Str) :
    (∀ c, c ∈ dangerous_chars → c ∉ sanitize_template_vars t) ∧
    (sanitize_template_vars t).length = t.length ∧
    (∀ i : Nat, ∀ c, t[i]? = some c → c ∉ dangerous_chars →
      (sanitize_template_vars t)[i]? = some c) ∧
    (∀ i : Nat, ∀ c, t[i]? = some c → c ∈ dangerous_chars →
      (sanitize_template_vars t)[i]? = some '_') := by
  rw [sanitize_template_vars_eq_map]
  refine ⟨?_, by simp, ?_, ?_⟩
  · intro c hc hmem
    rw [List.mem_map] at hmem
    obtain ⟨a, _, ha⟩ := hmem
    by_cases h : a ∈ dangerous_chars
    · rw [sanitize_char, if_pos h] at ha
      rw [← ha] at hc
      exact absurd hc (by decide)
    · rw [sanitize_char, if_neg h] at ha
      rw [← ha] at hc
      exact h hc
  · intro i c hti hc
    rw [List.getElem?_map, hti]
    simp only [Option.map_some']
    rw [sanitize_char, if_neg hc]
  · intro i c hti hc
    rw [List.getElem?_map, hti]
    simp only [Option.map_some']
    rw [sanitize_char, if_pos hc]

/-- The key-walking loop of `config_get` agrees with the partial traversal
`config_traverse`, with the default substituted for a failed lookup. -/
theorem config_get_loop_eq (default : ConfigValue) (keys : List Str)
    (value : ConfigValue) :
    config_get_loop default keys value
      = (config_traverse value keys).getD default := by
  induction keys generalizing value with
  | nil => cases value <;> rfl
  | cons key keys ih =>
    cases value with
    | dict entries =>
      cases h : entries.lookup key with
      | none => simp [config_get_loop, config_traverse, h]
      | some next => simp [config_get_loop, config_traverse, h, ih next]
    | str s => rfl
    | int n => rfl
    | bool b => rfl
    | list xs => rfl

/-- C9: the configuration getter walks the dotted path one key segment at a
time and returns the caller-supplied default exactly when a segment is
missing or a non-mapping node is met where a mapping was expected (that is,
when the partial traversal fails); otherwise it returns the value reached. -/
theorem config_get_spec (config : ConfigValue) (path : Str)
    (default : ConfigValue) :
    config_get config path default
      = (config_traverse config (path.splitOn '.')).getD default :=
  config_get_loop_eq default (path.splitOn '.') config

/-- C5: an unknown location id makes `construct_download_path` fail fast
with an UnknownLocation rejection, whatever the relative path and filename
template are — no path validation of the other arguments happens. -/
theorem construct_download_path_unknown_location
    (v : PathValidator) (locations : List (Str × LocationInfo))
    (eu rp : Str → Str) (default_template : Str) (location_id : Str)
    (relative_path filename_template : Option Str)
    (h : locations.lookup location_id = none) :
    construct_download_path v locations eu rp default_template location_id
      relative_path filename_template = .rejected .UnknownLocation := by
  simp [construct_download_path, validate_location, h]

/-- Witness for C5: the empty location table at a concrete id and concrete
other arguments. -/
theorem construct_download_path_unknown_location_witness :
    ([] : List (Str × LocationInfo)).lookup ("nowhere".toList) = none ∧
    construct_download_path default_validator [] id id default_filename_template
      ("nowhere".toList) (some ("clips".toList)) (some ("movie.mp4".toList))
      = .rejected .UnknownLocation :=
  ⟨rfl, construct_download_path_unknown_location default_validator [] id id
    default_filename_template ("nowhere".toList) (some ("clips".toList))
    (some ("movie.mp4".toList)) rfl⟩

/-- C2: with traversal blocking on, a candidate that case-insensitively
contains a dot-dot-slash or dot-dot-backslash sequence is rejected with
PathTraversalDetected or PathEscapesBase (in fact always the former) and is
never accepted, for every base directory and environment. -/
theorem validate_path_traversal_never_accepted
    (v : PathValidator) (eu rp : Str → Str) (path base_dir : Str)
    (hblock : v.block_traversal = true)
    (hpat : "../".toList <:+: py_lower path ∨ "..\\".toList <:+: py_lower path) :
    (validate_path v eu rp path base_dir = .rejected .PathTraversalDetected ∨
      validate_path v eu rp path base_dir = .rejected .PathEscapesBase) ∧
    ∀ q, validate_path v eu rp path base_dir ≠ .accepted q := by
  have hct : contains_traversal path = true := by
    simp only [contains_traversal, dangerous_patterns, List.any_cons, List.any_nil,
      Bool.or_eq_true, decide_eq_true_eq]
    rcases hpat with h | h
    · exact Or.inl h
    · exact Or.inr (Or.inl h)
  have hres : validate_path v eu rp path base_dir
      = .rejected .PathTraversalDetected := by
    rw [validate_path, hblock, hct]
    rfl
  rw [hres]
  exact ⟨Or.inl rfl, fun q h => by cases h⟩

/-- Witness for C2: the concrete candidate dot-dot-slash-x under a concrete
base, with the default (traversal-blocking) policy. -/
theorem validate_path_traversal_never_accepted_witness :
    default_validator.block_traversal = true ∧
    ("../".toList <:+: py_lower ("../x".toList) ∨
      "..\\".toList <:+: py_lower ("../x".toList)) ∧
    (validate_path default_validator id id ("../x".toList) ("/b".toList)
        = .rejected .PathTraversalDetected ∨
      validate_path default_validator id id ("../x".toList) ("/b".toList)
        = .rejected .PathEscapesBase) :=
  ⟨rfl, by decide,
    (validate_path_traversal_never_accepted default_validator id id
      ("../x".toList) ("/b".toList) rfl (by decide)).1⟩

/-- Counterexample to C4: an absolute candidate containing a traversal
sequence is rejected by the default policy with PathTraversalDetected, not
AbsolutePathRejected, so the claim fails for policies with traversal
blocking on. -/
theorem validate_path_absolute_counterexample :
    isabs ("/a/../b".toList) = true ∧
    default_validator.block_traversal = true ∧
    validate_path default_validator id id ("/a/../b".toList) ("/base".toList)
      = .rejected .PathTraversalDetected ∧
    validate_path default_validator id id ("/a/../b".toList) ("/base".toList)
      ≠ .rejected .AbsolutePathRejected := by
  decide

/-- C4 amended: an absolute candidate is rejected with AbsolutePathRejected
for every base directory and policy, provided the traversal pre-filter does
not fire first (traversal blocking off, or no traversal sequence in the
candidate). -/
theorem validate_path_absolute_rejected
    (v : PathValidator) (eu rp : Str → Str) (path base_dir : Str)
    (habs : isabs path = true)
    (htrav : ¬ (v.block_traversal = true ∧ contains_traversal path = true)) :
    validate_path v eu rp path base_dir = .rejected .AbsolutePathRejected := by
  have hcond : (v.block_traversal && contains_traversal path) = false := by
    cases hb : v.block_traversal <;> cases hc : contains_traversal path <;>
      simp_all
  rw [validate_path, hcond]
  simp only [Bool.false_eq_true, if_false]
  rw [habs]
  rfl

/-- Witness for C4 amended: a concrete absolute candidate without traversal
sequences, under the default policy. -/
theorem validate_path_absolute_rejected_witness :
    isabs ("/etc/passwd".toList) = true ∧
    ¬ (default_validator.block_traversal = true ∧
        contains_traversal ("/etc/passwd".toList) = true) ∧
    validate_path default_validator id id ("/etc/passwd".toList) ("/base".toList)
      = .rejected .AbsolutePathRejected :=
  ⟨by decide, by decide,
    validate_path_absolute_rejected default_validator id id
      ("/etc/passwd".toList) ("/base".toList) (by decide) (by decide)⟩

/-- The end-to-end demonstration location table: id default mapped to the
writable directory /tmp/dl. -/
def demo_locations : List (Str × LocationInfo) :=
  [("default".toList,
    { path := "/tmp/dl".toList, original := "/tmp/dl".toList, writable := true })]

/-- Counterexample to C3: under the default policy the candidate built from
the dot-dot relative path is caught by the textual traversal pre-filter, so
the rejection reason is PathTraversalDetected, not PathEscapesBase. -/
theorem construct_download_path_demo_counterexample :
    construct_download_path default_validator demo_locations id
      normalize_absolute default_filename_template ("default".toList)
      (some ("../../etc".toList)) (some ("passwd".toList))
      ≠ .rejected .PathEscapesBase := by
  decide

/-- C3 amended: with the default location table mapping default to /tmp/dl
(on a symlink-free filesystem), the clips/movie.mp4 request is accepted with
the composed absolute path, and the dot-dot request is rejected with
PathTraversalDetected (the traversal pre-filter fires before
canonicalization under the default policy). -/
theorem construct_download_path_demo :
    construct_download_path default_validator demo_locations id
      normalize_absolute default_filename_template ("default".toList)
      (some ("clips".toList)) (some ("movie.mp4".toList))
      = .accepted ("/tmp/dl/clips/movie.mp4".toList) ∧
    construct_download_path default_validator demo_locations id
      normalize_absolute default_filename_template ("default".toList)
      (some ("../../etc".toList)) (some ("passwd".toList))
      = .rejected .PathTraversalDetected := by
  decide

/-- C1: every accepted result is the canonical form (under the realpath
parameter) of the composed path, and is equal to the canonical base
directory or extends it by a path separator. -/
theorem validate_path_accepted_containment
    (v : PathValidator) (eu rp : Str → Str) (path base_dir p : Str)
    (h : validate_path v eu rp path base_dir = .accepted p) :
    p = rp (path_join (eu base_dir) path) ∧
      (p = rp (eu base_dir) ∨ (rp (eu base_dir) ++ ['/']) <+: p) := by
  rw [validate_path] at h
  by_cases h1 : (v.block_traversal && contains_traversal path) = true
  · rw [if_pos h1] at h; cases h
  · rw [if_neg h1] at h
    by_cases h2 : isabs path = true
    · rw [if_pos h2] at h; cases h
    · rw [if_neg h2] at h
      by_cases h3 : ¬ ((rp (eu base_dir) ++ ['/']) <+: rp (path_join (eu base_dir) path)) ∧
          rp (path_join (eu base_dir) path) ≠ rp (eu base_dir)
      · rw [if_pos h3] at h; cases h
      · rw [if_neg h3] at h
        by_cases h4 : (basename (rp (path_join (eu base_dir) path))).length > v.max_filename_length
        · rw [if_pos h4] at h; cases h
        · rw [if_neg h4] at h
          have hp : p = rp (path_join (eu base_dir) path) := by
            by_cases h5 : v.allowed_extensions ≠ []
            · rw [if_pos h5] at h
              by_cases h6 : lstrip_dot (py_lower (splitext_ext (basename (rp (path_join (eu base_dir) path))))) ≠ [] ∧
                  lstrip_dot (py_lower (splitext_ext (basename (rp (path_join (eu base_dir) path))))) ∉ v.allowed_extensions
              · rw [if_pos h6] at h; cases h
              · rw [if_neg h6] at h; cases h; rfl
            · rw [if_neg h5] at h; cases h; rfl
          refine ⟨hp, ?_⟩
          rw [not_and_or, not_not, not_ne_iff] at h3
          rcases h3 with h3 | h3
          · exact Or.inr (hp ▸ h3)
          · exact Or.inl (hp ▸ h3)

/-- Witness for C1: a concrete accepted request under the default policy
with identity environment functions. -/
theorem validate_path_accepted_containment_witness :
    validate_path default_validator id id ("a.mp4".toList) ("/b".toList)
      = .accepted ("/b/a.mp4".toList) ∧
    ("/b/a.mp4".toList = id (path_join (id ("/b".toList)) ("a.mp4".toList)) ∧
      ("/b/a.mp4".toList = id ("/b".toList) ∨
        (id ("/b".toList) ++ ['/']) <+: "/b/a.mp4".toList)) :=
  ⟨by decide,
    validate_path_accepted_containment default_validator id id
      ("a.mp4".toList) ("/b".toList) ("/b/a.mp4".toList) (by decide)⟩

/-- C6: when the earlier validation steps pass (no traversal hit, relative
candidate, containment holds) and the extension check is satisfiable, a
final component whose length is exactly the configured maximum is accepted,
and one exactly one character longer is rejected with FilenameTooLong. -/
theorem validate_path_filename_length_boundary
    (v : PathValidator) (eu rp : Str → Str) (path base_dir : Str)
    (htrav : (v.block_traversal && contains_traversal path) = false)
    (habs : isabs path = false)
    (hcontain : (rp (eu base_dir) ++ ['/']) <+: rp (path_join (eu base_dir) path) ∨
      rp (path_join (eu base_dir) path) = rp (eu base_dir))
    (hext : v.allowed_extensions = [] ∨
      lstrip_dot (py_lower (splitext_ext (basename (rp (path_join (eu base_dir) path))))) = [] ∨
      lstrip_dot (py_lower (splitext_ext (basename (rp (path_join (eu base_dir) path)))))
        ∈ v.allowed_extensions) :
    ((basename (rp (path_join (eu base_dir) path))).length = v.max_filename_length →
      validate_path v eu rp path base_dir
        = .accepted (rp (path_join (eu base_dir) path))) ∧
    ((basename (rp (path_join (eu base_dir) path))).length = v.max_filename_length + 1 →
      validate_path v eu rp path base_dir = .rejected .FilenameTooLong) := by
  have hesc : ¬ (¬ ((rp (eu base_dir) ++ ['/']) <+: rp (path_join (eu base_dir) path)) ∧
      rp (path_join (eu base_dir) path) ≠ rp (eu base_dir)) := by
    rcases hcontain with hc | hc
    · exact fun hcon => hcon.1 hc
    · exact fun hcon => hcon.2 hc
  constructor
  · intro hlen
    rw [validate_path, htrav]
    simp only [Bool.false_eq_true, if_false]
    rw [habs]
    simp only [Bool.false_eq_true, if_false]
    rw [if_neg hesc, if_neg (by rw [hlen]; exact Nat.lt_irrefl _)]
    rcases hext with he | he | he
    · rw [if_neg (by simp [he])]
    · by_cases h5 : v.allowed_extensions = []
      · rw [if_neg (by simp [h5])]
      · rw [if_pos h5, if_neg (fun hcon => hcon.1 he)]
    · rw [if_pos (List.ne_nil_of_mem he), if_neg (fun hcon => hcon.2 he)]
  · intro hlen
    rw [validate_path, htrav]
    simp only [Bool.false_eq_true, if_false]
    rw [habs]
    simp only [Bool.false_eq_true, if_false]
    rw [if_neg hesc, if_pos (by rw [hlen]; exact Nat.lt_succ_self _)]

/-- A policy for the boundary witness: allow-list mp4, maximum filename
length seven, traversal blocking on. -/
def boundary_validator : PathValidator where
  allowed_extensions := ["mp4".toList]
  max_filename_length := 7
  block_traversal := true

/-- Witness for C6: with maximum length seven, the seven-character filename
abc.mp4 is accepted and the eight-character filename abcd.mp4 is rejected
as too long. -/
theorem validate_path_filename_length_boundary_witness :
    validate_path boundary_validator id id ("abc.mp4".toList) ("/b".toList)
      = .accepted ("/b/abc.mp4".toList) ∧
    validate_path boundary_validator id id ("abcd.mp4".toList) ("/b".toList)
      = .rejected .FilenameTooLong :=
  ⟨(validate_path_filename_length_boundary boundary_validator id id
      ("abc.mp4".toList) ("/b".toList) (by decide) (by decide) (by decide)
      (by decide)).1 (by decide),
    (validate_path_filename_length_boundary boundary_validator id id
      ("abcd.mp4".toList) ("/b".toList) (by decide) (by decide) (by decide)
      (by decide)).2 (by decide)⟩

/-- C7: with a non-empty allow-list and the earlier validation steps
passing, a final component whose lowercased dotless extension is in the
allow-list is accepted, a non-empty extension outside the allow-list is
rejected with ExtensionNotAllowed, and an empty extension is accepted. -/
theorem validate_path_extension_allowlist
    (v : PathValidator) (eu rp : Str → Str) (path base_dir : Str)
    (htrav : (v.block_traversal && contains_traversal path) = false)
    (habs : isabs path = false)
    (hcontain : (rp (eu base_dir) ++ ['/']) <+: rp (path_join (eu base_dir) path) ∨
      rp (path_join (eu base_dir) path) = rp (eu base_dir))
    (hlen : (basename (rp (path_join (eu base_dir) path))).length ≤ v.max_filename_length)
    (hnonempty : v.allowed_extensions ≠ []) :
    (lstrip_dot (py_lower (splitext_ext (basename (rp (path_join (eu base_dir) path)))))
        ∈ v.allowed_extensions →
      validate_path v eu rp path base_dir
        = .accepted (rp (path_join (eu base_dir) path))) ∧
    (lstrip_dot (py_lower (splitext_ext (basename (rp (path_join (eu base_dir) path))))) ≠ [] ∧
      lstrip_dot (py_lower (splitext_ext (basename (rp (path_join (eu base_dir) path)))))
        ∉ v.allowed_extensions →
      validate_path v eu rp path base_dir = .rejected .ExtensionNotAllowed) ∧
    (lstrip_dot (py_lower (splitext_ext (basename (rp (path_join (eu base_dir) path))))) = [] →
      validate_path v eu rp path base_dir
        = .accepted (rp (path_join (eu base_dir) path))) := by
  have hesc : ¬ (¬ ((rp (eu base_dir) ++ ['/']) <+: rp (path_join (eu base_dir) path)) ∧
      rp (path_join (eu base_dir) path) ≠ rp (eu base_dir)) := by
    rcases hcontain with hc | hc
    · exact fun hcon => hcon.1 hc
    · exact fun hcon => hcon.2 hc
  have hcommon : validate_path v eu rp path base_dir
      = if lstrip_dot (py_lower (splitext_ext (basename (rp (path_join (eu base_dir) path))))) ≠ [] ∧
          lstrip_dot (py_lower (splitext_ext (basename (rp (path_join (eu base_dir) path)))))
            ∉ v.allowed_extensions then
        .rejected .ExtensionNotAllowed
      else .accepted (rp (path_join (eu base_dir) path)) := by
    rw [validate_path, htrav]
    simp only [Bool.false_eq_true, if_false]
    rw [habs]
    simp only [Bool.false_eq_true, if_false]
    rw [if_neg hesc, if_neg (by omega), if_pos hnonempty]
  refine ⟨?_, ?_, ?_⟩
  · intro hmem
    rw [hcommon, if_neg (fun hcon => hcon.2 hmem)]
  · intro hbad
    rw [hcommon, if_pos hbad]
  · intro hempty
    rw [hcommon, if_neg (fun hcon => hcon.1 hempty)]

/-- A policy for the allow-list witness: allow-list mp4, default maximum
filename length, traversal blocking on. -/
def allowlist_validator : PathValidator where
  allowed_extensions := ["mp4".toList]
  max_filename_length := 255
  block_traversal := true

/-- Witness for C7: with the allow-list mp4, clip.mp4 is accepted,
payload.sh is rejected with ExtensionNotAllowed, and the extension-free
noext is accepted. -/
theorem validate_path_extension_allowlist_witness :
    validate_path allowlist_validator id id ("clip.mp4".toList) ("/b".toList)
      = .accepted ("/b/clip.mp4".toList) ∧
    validate_path allowlist_validator id id ("payload.sh".toList) ("/b".toList)
      = .rejected .ExtensionNotAllowed ∧
    validate_path allowlist_validator id id ("noext".toList) ("/b".toList)
      = .accepted ("/b/noext".toList) :=
  ⟨(validate_path_extension_allowlist allowlist_validator id id
      ("clip.mp4".toList) ("/b".toList) (by decide) (by decide) (by decide)
      (by decide) (by decide)).1 (by decide),
    (validate_path_extension_allowlist allowlist_validator id id
      ("payload.sh".toList) ("/b".toList) (by decide) (by decide) (by decide)
      (by decide) (by decide)).2.1 (by decide),
    (validate_path_extension_allowlist allowlist_validator id id
      ("noext".toList) ("/b".toList) (by decide) (by decide) (by decide)
      (by decide) (by decide)).2.2 (by decide)⟩
